import Mathlib

/-!
Verification of the LLM-Council deliberation orchestrator (`src/council.py`)
and its provider layer (`src/providers/*.py`, `src/utils/cache.py`) through a
shallow embedding in Lean 4.

Modelling conventions:
* A provider's remote call (`provider.query(...)` as seen through
  `asyncio.wait_for`) is an oracle `behavior : String → Call`, giving for each
  prompt the wall-clock duration of the call and its outcome (returned string
  or raised-exception message).  `asyncio.wait_for(…, timeout=t)` is modelled
  by `waitFor`: the call times out exactly when its duration exceeds `t`,
  otherwise the call's own outcome is observed.  Since `except Exception`
  does not catch task cancellation in Python, the timeout is the only
  exception path a provider call itself cannot absorb.
* Python `dict` objects keyed by provider name are modelled as
  insertion-ordered association lists with Python's assignment semantics
  (`dictSet`): assigning to an existing key updates it in place, assigning a
  fresh key appends.
* Functions that can raise return `Except PyError α`; a plain return type
  models code that cannot raise.  `print` calls (the `verbose` output) are
  not modelled; they do not affect any returned value.
* Every operation additionally returns a `CallLog`: the list of
  (provider name, prompt) network calls it issued, in program order.
-/

/-- Python dict lookup on an insertion-ordered association list. -/
def dictGet : List (String × String) → String → Option String
  | [], _ => none
  | (k', v) :: rest, k => if k' = k then some v else dictGet rest k

/-- Python `key in dict`. -/
def dictHasKey : List (String × String) → String → Bool
  | [], _ => false
  | (k', _) :: rest, k => if k' = k then true else dictHasKey rest k

/-- Python dict assignment `d[k] = v`: update in place if the key exists,
append otherwise (insertion order preserved). -/
def dictSet (d : List (String × String)) (k v : String) : List (String × String) :=
  if dictHasKey d k then d.map (fun p => if p.1 = k then (k, v) else p)
  else d ++ [(k, v)]

/-- The key list of a dict, in insertion order. -/
def dictKeys (d : List (String × String)) : List String := d.map Prod.fst

theorem dictHasKey_iff (d : List (String × String)) (k : String) :
    dictHasKey d k = true ↔ k ∈ dictKeys d := by
  induction d with
  | nil => simp [dictHasKey, dictKeys]
  | cons p rest ih =>
    by_cases h : p.1 = k
    · simp [dictHasKey, dictKeys, h]
    · simp [dictHasKey, dictKeys, h, ih]
      intro he
      exact absurd he.symm h

theorem dictGet_eq_none_of_not_hasKey (d : List (String × String)) (k : String)
    (h : dictHasKey d k = false) : dictGet d k = none := by
  induction d with
  | nil => rfl
  | cons p rest ih =>
    by_cases hp : p.1 = k
    · simp [dictHasKey, hp] at h
    · simpa [dictGet, hp] using ih (by simpa [dictHasKey, hp] using h)

theorem dictGet_append_of_none (d e : List (String × String)) (k : String)
    (h : dictGet d k = none) : dictGet (d ++ e) k = dictGet e k := by
  induction d with
  | nil => rfl
  | cons p rest ih =>
    by_cases hp : p.1 = k
    · simp [dictGet, hp] at h
    · simp [dictGet, hp] at h ⊢
      exact ih h

theorem dictGet_map_update_self (d : List (String × String)) (k v : String)
    (h : dictHasKey d k = true) :
    dictGet (d.map (fun p => if p.1 = k then (k, v) else p)) k = some v := by
  induction d with
  | nil => simp [dictHasKey] at h
  | cons p rest ih =>
    by_cases hp : p.1 = k
    · have hfp : (if p.1 = k then (k, v) else p) = (k, v) := if_pos hp
      rw [List.map_cons, hfp]
      simp [dictGet]
    · have h' : dictHasKey rest k = true := by simpa [dictHasKey, hp] using h
      have hfp : (if p.1 = k then (k, v) else p) = p := if_neg hp
      rw [List.map_cons, hfp]
      simp only [dictGet, if_neg hp]
      exact ih h'

/-- Reading back the key just assigned. -/
theorem dictGet_dictSet_self (d : List (String × String)) (k v : String) :
    dictGet (dictSet d k v) k = some v := by
  unfold dictSet
  by_cases h : dictHasKey d k
  · simpa [h] using dictGet_map_update_self d k v h
  · have hn : dictGet d k = none :=
      dictGet_eq_none_of_not_hasKey d k (by simpa using h)
    simp [h, dictGet_append_of_none d _ k hn, dictGet]

theorem dictGet_map_update_ne (d : List (String × String)) (k v k' : String)
    (h : k' ≠ k) :
    dictGet (d.map (fun p => if p.1 = k then (k, v) else p)) k' = dictGet d k' := by
  induction d with
  | nil => rfl
  | cons p rest ih =>
    by_cases hp : p.1 = k
    · have hfp : (if p.1 = k then (k, v) else p) = (k, v) := if_pos hp
      have hp' : p.1 ≠ k' := by rw [hp]; exact Ne.symm h
      rw [List.map_cons, hfp]
      simp only [dictGet, if_neg (Ne.symm h), if_neg hp']
      exact ih
    · have hfp : (if p.1 = k then (k, v) else p) = p := if_neg hp
      rw [List.map_cons, hfp]
      by_cases hp' : p.1 = k'
      · simp only [dictGet, if_pos hp']
      · simp only [dictGet, if_neg hp']
        exact ih

/-- Assigning one key leaves every other key's value unchanged. -/
theorem dictGet_dictSet_ne (d : List (String × String)) (k v k' : String)
    (h : k' ≠ k) : dictGet (dictSet d k v) k' = dictGet d k' := by
  unfold dictSet
  by_cases hk : dictHasKey d k
  · simp only [hk, if_true]
    exact dictGet_map_update_ne d k v k' h
  · simp only [hk, Bool.false_eq_true, if_false]
    clear hk
    induction d with
    | nil => simp [dictGet, Ne.symm h]
    | cons p rest ih =>
      by_cases hp' : p.1 = k'
      · simp [dictGet, hp']
      · simp only [List.cons_append, dictGet, if_neg hp']
        exact ih

/-- Assigning a fresh key appends it to the key list. -/
theorem dictKeys_dictSet_fresh (d : List (String × String)) (k v : String)
    (h : dictHasKey d k = false) :
    dictKeys (dictSet d k v) = dictKeys d ++ [k] := by
  simp [dictSet, h, dictKeys]

/-! ## The provider-call model (`asyncio.wait_for` around `provider.query`) -/

/-- One remote provider call as the orchestrator sees it: how long the call
runs and whether it returns a string or raises (carrying `str(e)`). -/
structure Call where
  duration : Nat
  outcome : Except String String

/-- Result of `asyncio.wait_for(call, timeout=t)`: the value, a
`TimeoutError`, or the call's own raised exception. -/
inductive CallResult where
  | ok (s : String)
  | timeout
  | raised (msg : String)
deriving DecidableEq

/-- `asyncio.wait_for(call, timeout=t)`: the call times out exactly when its
duration exceeds the allowance, otherwise its own outcome is observed. -/
def waitFor (c : Call) (t : Nat) : CallResult :=
  if t < c.duration then .timeout
  else match c.outcome with
    | .ok s => .ok s
    | .error m => .raised m

/-- A registered provider: its `get_provider_name()`, its `default_model`
attribute, and the oracle describing each `provider.query(prompt)` call. -/
structure Provider where
  name : String
  default_model : String
  behavior : String → Call

/-- `class LLMCouncil` (src/council.py): the provider list built at
construction and the `_current_prompt` instance field. -/
structure LLMCouncil where
  providers : List Provider
  currentPrompt : String

/-- `API_TIMEOUT = 60` (src/council.py line 7). -/
def API_TIMEOUT : Nat := 60

/-- `OLLAMA_TIMEOUT = 120` (src/council.py line 8). -/
def OLLAMA_TIMEOUT : Nat := 120

/-- The `(provider name, prompt)` network calls an operation issued, in
program order. -/
abbrev CallLog := List (String × String)

/-! ## Fan-out executor: `LLMCouncil.query_all` -/

/-- The `summary_prompt` f-string built inside `query_all`. -/
def summaryPrompt (prompt : String) : String :=
  "Provide a crisp, to-the-point answer. Be concise and direct - no fluff, just essential information.\n\nQuestion: " ++ prompt ++ "\n\nAnswer:"

/-- The inner `query_with_timeout` of `query_all`: a timeout or exception is
returned as an `Exception` value (modelled `.error` with its `str()`),
never raised. -/
def query_with_timeout (p : Provider) (prompt : String) : Except String String :=
  match waitFor (p.behavior prompt) API_TIMEOUT with
  | .ok s => .ok s
  | .timeout => .error ("Timeout after " ++ toString API_TIMEOUT ++ "s")
  | .raised m => .error m

/-- The string placed in a provider's result slot by `query_all`. -/
def queryAllSlot (p : Provider) (sp : String) : String :=
  match query_with_timeout p sp with
  | .error e => "Error: " ++ e
  | .ok s => s

/-- `LLMCouncil.query_all`: fan out the summary prompt to every provider,
collect a name-keyed dict of responses or in-band error markers.  The
function is total: the gather absorbs per-provider timeouts and exceptions,
so the overall call never raises. -/
def query_all (c : LLMCouncil) (prompt : String) : List (String × String) × CallLog :=
  let sp := summaryPrompt prompt
  (c.providers.foldl (fun d p => dictSet d p.name (queryAllSlot p sp)) [],
   c.providers.map (fun p => (p.name, sp)))

theorem dictKeys_foldl_slots (l : List Provider) (f : Provider → String)
    (d : List (String × String))
    (hfresh : ∀ p ∈ l, dictHasKey d p.name = false)
    (hnodup : (l.map Provider.name).Nodup) :
    dictKeys (l.foldl (fun d p => dictSet d p.name (f p)) d)
      = dictKeys d ++ l.map Provider.name := by
  induction l generalizing d with
  | nil => simp
  | cons p rest ih =>
    have hp : dictHasKey d p.name = false := hfresh p (List.mem_cons_self _ _)
    have hkeys : dictKeys (dictSet d p.name (f p)) = dictKeys d ++ [p.name] :=
      dictKeys_dictSet_fresh d p.name (f p) hp
    have hnodup' : (rest.map Provider.name).Nodup := (List.nodup_cons.mp hnodup).2
    have hnotin : p.name ∉ rest.map Provider.name := (List.nodup_cons.mp hnodup).1
    have hfresh' : ∀ q ∈ rest, dictHasKey (dictSet d p.name (f p)) q.name = false := by
      intro q hq
      have hqd : dictHasKey d q.name = false := hfresh q (List.mem_cons_of_mem _ hq)
      have hqp : q.name ≠ p.name := by
        intro he
        exact hnotin (he ▸ List.mem_map_of_mem Provider.name hq)
      by_contra hcontra
      have : dictHasKey (dictSet d p.name (f p)) q.name = true := by
        revert hcontra
        cases dictHasKey (dictSet d p.name (f p)) q.name <;> simp
      have hmem : q.name ∈ dictKeys (dictSet d p.name (f p)) := (dictHasKey_iff _ _).mp this
      rw [hkeys] at hmem
      rcases List.mem_append.mp hmem with hmem | hmem
      · have := (dictHasKey_iff d q.name).mpr hmem
        rw [hqd] at this
        exact Bool.false_ne_true this
      · exact hqp (List.mem_singleton.mp hmem)
    rw [List.foldl_cons, ih (dictSet d p.name (f p)) hfresh' hnodup', hkeys]
    simp

theorem dictGet_foldl_slots_absent (l : List Provider) (f : Provider → String)
    (d : List (String × String)) (k : String)
    (habs : k ∉ l.map Provider.name) :
    dictGet (l.foldl (fun d p => dictSet d p.name (f p)) d) k = dictGet d k := by
  induction l generalizing d with
  | nil => rfl
  | cons p rest ih =>
    have hk : k ≠ p.name := by
      intro he
      exact habs (by simp [he])
    have habs' : k ∉ rest.map Provider.name := by
      intro hmem
      exact habs (List.mem_cons_of_mem _ hmem)
    rw [List.foldl_cons, ih (dictSet d p.name (f p)) habs',
        dictGet_dictSet_ne d p.name (f p) k hk]

theorem dictGet_foldl_slots (l : List Provider) (f : Provider → String)
    (d : List (String × String)) (q : Provider)
    (hq : q ∈ l) (hnodup : (l.map Provider.name).Nodup) :
    dictGet (l.foldl (fun d p => dictSet d p.name (f p)) d) q.name = some (f q) := by
  induction l generalizing d with
  | nil => cases hq
  | cons p rest ih =>
    have hnodup' : (rest.map Provider.name).Nodup := (List.nodup_cons.mp hnodup).2
    have hnotin : p.name ∉ rest.map Provider.name := (List.nodup_cons.mp hnodup).1
    rcases List.mem_cons.mp hq with hq | hq
    · subst hq
      rw [List.foldl_cons,
          dictGet_foldl_slots_absent rest f (dictSet d q.name (f q)) q.name hnotin]
      exact dictGet_dictSet_self d q.name (f q)
    · rw [List.foldl_cons]
      exact ih (dictSet d p.name (f p)) hq hnodup'

/-! ## Critique and synthesis pipeline -/

/-- Python exception values the orchestrator raises. -/
inductive PyError where
  | valueError (msg : String)
  | runtimeError (msg : String)
  | indexError
deriving DecidableEq

/-- `repr` of a Python string as it appears inside an f-string rendering of a
dict (quote-escaping inside the text is not modelled; no claim depends on
it). -/
def pyRepr (s : String) : String := "\x27" ++ s ++ "\x27"

/-- `str()` of a Python dict, as interpolated by the f-strings
(`{other_responses}`, `{responses}`, `{critiques}`). -/
def pyReprDict (d : List (String × String)) : String :=
  "\x7b" ++ String.intercalate ", " (d.map (fun p => pyRepr p.1 ++ ": " ++ pyRepr p.2)) ++ "\x7d"

/-- The `critique_prompt` f-string of `_generate_critiques`; `question` is
`self._current_prompt`. -/
def critiquePrompt (question : String) (other : List (String × String)) : String :=
  "\nReview these answers for conciseness and accuracy.\n\nQuestion: " ++ question ++
  "\n\nOther Answers: " ++ pyReprDict other ++
  "\n\nCritique:\n1. What\x27s correct but too verbose?\n2. What\x27s missing or wrong?\n3. How to make them more crisp and to-the-point?\n\nBe brief in your critique.\n"

/-- `LLMCouncil._generate_critiques`: each provider critiques the others'
responses, one at a time; a timeout or exception becomes an in-band string
in that provider's critique slot. -/
def generate_critiques (c : LLMCouncil) (responses : List (String × String)) :
    List (String × String) × CallLog :=
  c.providers.foldl
    (fun acc p =>
      let other := responses.filter (fun kv => kv.1 != p.name)
      let cp := critiquePrompt c.currentPrompt other
      let entry :=
        match waitFor (p.behavior cp) API_TIMEOUT with
        | .ok s => s
        | .timeout => "Timeout after " ++ toString API_TIMEOUT ++ "s"
        | .raised m => "Error: " ++ m
      (dictSet acc.1 p.name entry, acc.2 ++ [(p.name, cp)]))
    ([], [])

/-- The `synthesis_prompt` f-string of `_synthesize_answer`; `question` is
`self._current_prompt`. -/
def synthesisPrompt (question : String) (responses critiques : List (String × String)) : String :=
  "\nYou are an expert summarizer. Provide a crisp, to-the-point answer.\n\nQuestion: " ++ question ++
  "\n\nAnswers from models:\n" ++ pyReprDict responses ++
  "\n\nCritiques: " ++ pyReprDict critiques ++
  "\n\nTask: Create ONE concise, direct answer that:\n- Captures the essential information\n- Removes redundancy and fluff\n- Is crisp and to-the-point\n- Corrects any errors\n\nBe ruthless - keep it short and direct. No unnecessary words.\n"

/-- `LLMCouncil._synthesize_answer`: the first-registered provider
(`self.providers[0]`) is the synthesizer; a timeout or exception is re-raised
as a `RuntimeError` (the `indexError` arm models Python's `providers[0]` on
an empty list, unreachable because construction requires a provider). -/
def synthesize_answer (c : LLMCouncil) (responses critiques : List (String × String)) :
    Except PyError String × CallLog :=
  match c.providers with
  | [] => (.error .indexError, [])
  | syn :: _ =>
    let sp := synthesisPrompt c.currentPrompt responses critiques
    (match waitFor (syn.behavior sp) API_TIMEOUT with
     | .ok s => .ok s
     | .timeout => .error (.runtimeError ("Synthesis timed out after " ++ toString API_TIMEOUT ++ " seconds"))
     | .raised m => .error (.runtimeError ("Error during synthesis: " ++ m)),
     [(syn.name, sp)])

/-- The dict returned by `LLMCouncil.consult`. -/
structure ConsultResult where
  question : String
  responses : List (String × String)
  critiques : List (String × String)
  final_answer : String
deriving DecidableEq

/-- `LLMCouncil.consult`: store the prompt in `_current_prompt`, fan out,
cross-critique, synthesize; a synthesis failure propagates as a raised
`RuntimeError`. -/
def consult (c : LLMCouncil) (prompt : String) :
    LLMCouncil × Except PyError ConsultResult × CallLog :=
  let c1 : LLMCouncil := { c with currentPrompt := prompt }
  let qa := query_all c1 prompt
  let gc := generate_critiques c1 qa.1
  let sa := synthesize_answer c1 qa.1 gc.1
  match sa.1 with
  | .ok fa => (c1, .ok ⟨prompt, qa.1, gc.1, fa⟩, qa.2 ++ gc.2 ++ sa.2)
  | .error e => (c1, .error e, qa.2 ++ gc.2 ++ sa.2)

/-! ## Python string primitives

Lean core's `String.splitOn`, `String.replace`, `String.trim`,
`String.toLower` and `String.isPrefixOf` are defined by well-founded
recursion and do not reduce inside the kernel, so the Python `str`
operations used by the source are modelled structurally over the character
list instead. -/

/-- `listStartsWith s pre` is true when `pre` is an initial segment of `s`. -/
def listStartsWith : List Char → List Char → Bool
  | _, [] => true
  | [], _ :: _ => false
  | c :: cs, p :: ps => c = p && listStartsWith cs ps

/-- Python `pat in s` on character lists. -/
def listContainsSub : List Char → List Char → Bool
  | [], pat => pat.isEmpty
  | c :: cs, pat => listStartsWith (c :: cs) pat || listContainsSub cs pat

/-- Python substring test `pat in s`. -/
def strContains (s pat : String) : Bool := listContainsSub s.data pat.data

/-- Python `s.startswith(pre)`. -/
def pyStartswith (s pre : String) : Bool := listStartsWith s.data pre.data

/-- Python `s.split(sep)` (non-empty `sep`) on character lists; the fuel is
initialized to the input length and each step consumes at least one
character, so the fuel-exhausted arm is never reached. -/
def listSplitOn (sep : List Char) : Nat → List Char → List Char → List (List Char)
  | _, [], cur => [cur.reverse]
  | 0, cs, cur => [cur.reverse ++ cs]
  | fuel + 1, c :: cs, cur =>
    if listStartsWith (c :: cs) sep && !sep.isEmpty then
      cur.reverse :: listSplitOn sep fuel ((c :: cs).drop sep.length) []
    else
      listSplitOn sep fuel cs (c :: cur)

/-- Python `s.split(sep)` for a non-empty separator. -/
def pySplitOn (s sep : String) : List String :=
  (listSplitOn sep.data s.data.length s.data []).map (fun cs => ⟨cs⟩)

/-- Python `s.replace(old, new)` (non-empty `old`) on character lists, fuel
as above. -/
def listReplace (pat rep : List Char) : Nat → List Char → List Char
  | _, [] => []
  | 0, cs => cs
  | fuel + 1, c :: cs =>
    if listStartsWith (c :: cs) pat && !pat.isEmpty then
      rep ++ listReplace pat rep fuel ((c :: cs).drop pat.length)
    else
      c :: listReplace pat rep fuel cs

/-- Python `s.replace(old, new)`: every occurrence of `old` replaced. -/
def pyReplace (s pat rep : String) : String :=
  ⟨listReplace pat.data rep.data s.data.length s.data⟩

/-- Python `s.strip()`: leading and trailing whitespace removed. -/
def pyStrip (s : String) : String :=
  ⟨((s.data.dropWhile Char.isWhitespace).reverse.dropWhile Char.isWhitespace).reverse⟩

/-- Python `s.lower()` (ASCII case mapping). -/
def pyLower (s : String) : String := ⟨s.data.map Char.toLower⟩

/-- Python `s.split()` with no separator: split on whitespace runs,
dropping empty tokens; `cur` holds the current token reversed. -/
def listSplitWs : List Char → List Char → List String
  | [], cur => if cur.isEmpty then [] else [⟨cur.reverse⟩]
  | c :: cs, cur =>
    if c.isWhitespace then
      if cur.isEmpty then listSplitWs cs [] else ⟨cur.reverse⟩ :: listSplitWs cs []
    else
      listSplitWs cs (c :: cur)

/-- Python `s.split()` (whitespace tokenization). -/
def pySplitWs (s : String) : List String := listSplitWs s.data []

/-! ## Sequential refinement engine -/

/-- The fallback analysis string of `sequential_refine` (src/council.py line
249), used when a section marker is missing from the refiner's output. -/
def fallbackAnalysis : String :=
  "Response analyzed and optimized by combining information from both providers."

/-- The two-section parser inlined at src/council.py lines 243-250: if both
literal markers occur, split on `"OPTIMIZED RESPONSE:"`; the analysis is the
part before it with every `"ANALYSIS:"` label removed and stripped, the
refined response the part after it, stripped.  Otherwise the whole output is
the refined response and the analysis is `fallbackAnalysis`.  Returns
`(analysis, optimized_response)`. -/
def parseRefinement (combined : String) : String × String :=
  if strContains combined "ANALYSIS:" && strContains combined "OPTIMIZED RESPONSE:" then
    let parts := pySplitOn combined "OPTIMIZED RESPONSE:"
    let analysis := pyStrip (pyReplace (parts.headD "") "ANALYSIS:" "")
    let optimized := if parts.length > 1 then pyStrip (parts.getD 1 "") else combined
    (analysis, optimized)
  else
    (fallbackAnalysis, combined)

/-- The `summary_prompt` f-string built inside `sequential_refine` (it
differs from the one in `query_all` by one word). -/
def seqSummaryPrompt (prompt : String) : String :=
  "Provide a crisp, to-the-point answer. Be concise and direct - no fluff, just the essential information.\n\nQuestion: " ++ prompt ++ "\n\nAnswer:"

/-- The per-provider timeout chosen inside `sequential_refine`:
`OLLAMA_TIMEOUT if provider_name == "Ollama" else API_TIMEOUT`. -/
def seqRefineTimeout (name : String) : Nat :=
  if name = "Ollama" then OLLAMA_TIMEOUT else API_TIMEOUT

/-- The inner `get_independent_response` of `sequential_refine`: a timeout
or exception is re-raised as a `RuntimeError`. -/
def independentResponse (p : Provider) (sp : String) : Except PyError String :=
  let t := seqRefineTimeout p.name
  match waitFor (p.behavior sp) t with
  | .ok s => .ok s
  | .timeout => .error (.runtimeError
      (p.name ++ " timed out after " ++ toString t ++
       " seconds. If using Ollama, make sure it\x27s running and the model is downloaded: \x27ollama pull " ++
       p.default_model ++ "\x27"))
  | .raised m => .error (.runtimeError ("Error from " ++ p.name ++ ": " ++ m))

/-- The `refine_prompt` f-string of `sequential_refine`. -/
def refinePromptOf (question firstName firstResp secondName secondResp : String) : String :=
  "Analyze the first response and find what\x27s missing. Then create an optimized answer that combines both.\n\nQuestion: " ++ question ++
  "\n\nFirst Response (from " ++ firstName ++ "):\n" ++ firstResp ++
  "\n\nSecond Response (from " ++ secondName ++ "):\n" ++ secondResp ++
  "\n\nTask:\n1. Identify what\x27s missing in the first response that the second has\n2. Find what\x27s missing in the second response that the first has\n3. Create ONE optimized answer that combines the best of both and fills all gaps\n\nFormat:\nANALYSIS:\n[What\x27s missing in each response]\n\nOPTIMIZED RESPONSE:\n[Combined answer with all information, no redundancy]"

/-- The dict returned by `LLMCouncil.sequential_refine`. -/
structure RefineResult where
  question : String
  independent_responses : List (String × String)
  analysis : String
  final_answer : String
deriving DecidableEq

/-- `LLMCouncil.sequential_refine`: store the prompt in `_current_prompt`;
require at least two providers (raising `ValueError` before any network
call otherwise); gather the two independent baselines (when both fail,
`asyncio.gather` propagates whichever exception is raised first — modelled
as the first provider's); have the second provider refine; parse its output
with `parseRefinement`.  A step timeout or exception is fatal
(`RuntimeError`). -/
def sequential_refine (c : LLMCouncil) (prompt : String) :
    LLMCouncil × Except PyError RefineResult × CallLog :=
  let c1 : LLMCouncil := { c with currentPrompt := prompt }
  if c1.providers.length < 2 then
    (c1, .error (.valueError "Sequential refinement requires at least 2 providers"), [])
  else
    match c1.providers with
    | first :: second :: _ =>
      let sp := seqSummaryPrompt prompt
      let gatherLog : CallLog := [(first.name, sp), (second.name, sp)]
      match independentResponse first sp, independentResponse second sp with
      | .error e, _ => (c1, .error e, gatherLog)
      | .ok _, .error e => (c1, .error e, gatherLog)
      | .ok firstResp, .ok secondResp =>
        let rp := refinePromptOf prompt first.name firstResp second.name secondResp
        let t := seqRefineTimeout second.name
        let log := gatherLog ++ [(second.name, rp)]
        match waitFor (second.behavior rp) t with
        | .timeout => (c1, .error (.runtimeError
            ("Refinement by " ++ second.name ++ " timed out after " ++ toString API_TIMEOUT ++
             " seconds. This might be due to slow API response or network issues.")), log)
        | .raised m => (c1, .error (.runtimeError
            ("Error during refinement by " ++ second.name ++ ": " ++ m ++
             ". Check if the API key is valid and the service is available.")), log)
        | .ok combined =>
          let parsed := parseRefinement combined
          (c1, .ok ⟨prompt,
                    dictSet (dictSet [] first.name firstResp) second.name secondResp,
                    parsed.1, parsed.2⟩, log)
    | _ =>
      -- unreachable: guarded by the length check above
      (c1, .error .indexError, [])

/-! ## Summarizer -/

/-- The dict returned by `LLMCouncil.summarize`. -/
structure SummaryResult where
  question : String
  summary : String
deriving DecidableEq

/-- The `summary_prompt` f-string of `summarize`. -/
def summarizePromptOf (prompt : String) : String :=
  "Provide a crisp answer in short, easy-to-remember bullet points.\n\nQuestion: " ++ prompt ++
  "\n\nFormat your answer as:\n• Point 1 (concise)\n• Point 2 (concise)\n• Point 3 (concise)\n\nKeep each point short (1-2 lines max). Make it easy to remember and understand.\nAnswer:"

/-- `LLMCouncil.summarize`: store the prompt in `_current_prompt`; one call
to the first-registered provider; failure is fatal (`RuntimeError`). -/
def summarize (c : LLMCouncil) (prompt : String) :
    LLMCouncil × Except PyError SummaryResult × CallLog :=
  let c1 : LLMCouncil := { c with currentPrompt := prompt }
  match c1.providers with
  | [] => (c1, .error .indexError, [])
  | s :: _ =>
    let sp := summarizePromptOf prompt
    match waitFor (s.behavior sp) API_TIMEOUT with
    | .ok sum => (c1, .ok ⟨prompt, sum⟩, [(s.name, sp)])
    | .timeout => (c1, .error (.runtimeError
        ("Summary generation timed out after " ++ toString API_TIMEOUT ++ " seconds")), [(s.name, sp)])
    | .raised m => (c1, .error (.runtimeError
        ("Error generating summary: " ++ m)), [(s.name, sp)])

/-! ## Provider layer (src/providers) and response cache (src/utils/cache.py) -/

/-- Python `model or default`: `None` and the empty string are falsy. -/
def pyOr (model : Option String) (dflt : String) : String :=
  match model with
  | none => dflt
  | some s => if s = "" then dflt else s

/-- `GroqProvider` (src/providers/groq_provider.py): `api` is the oracle for
the `chat.completions.create` call run in the executor, per (model, prompt):
the returned message content, or the raised exception's `str()`. -/
structure GroqProvider where
  api_key : String
  default_model : String
  api : String → String → Except String String

/-- `GroqProvider.query`: the whole body is wrapped in
`try/except Exception`, so an API failure comes back in-band as
`"Error from Groq: ..."` and the method itself never raises. -/
def GroqProvider.query (g : GroqProvider) (prompt : String) (model : Option String) : String :=
  let m := pyOr model g.default_model
  match g.api m prompt with
  | .ok content => content
  | .error e => "Error from Groq: " ++ e

/-- `MistralProvider` (src/providers/mistral_provider.py), same shape. -/
structure MistralProvider where
  api_key : String
  default_model : String
  api : String → String → Except String String

/-- `MistralProvider.query`: as for Groq, failures come back in-band as
`"Error from Mistral: ..."`. -/
def MistralProvider.query (mi : MistralProvider) (prompt : String) (model : Option String) : String :=
  let m := pyOr model mi.default_model
  match mi.api m prompt with
  | .ok content => content
  | .error e => "Error from Mistral: " ++ e

/-- `OllamaProvider` (src/providers/ollama_provider.py).  `tags` is the
oracle for the `requests.get(f"{base_url}/api/tags", timeout=2)` model
check: `none` if the request raised (the inner bare `except: pass` swallows
it), `some none` if the status was not 200, `some (some l)` the listed model
names on a 200.  `chat` is the oracle for the chat call per (model, prompt);
the `ollama.Client` branch and the module-level fallback branch issue the
same call, so one oracle covers both. -/
structure OllamaProvider where
  base_url : String
  default_model : String
  tags : Option (Option (List String))
  chat : String → String → Except String String

/-- `model.split(":")[0]`. -/
def modelBase (model : String) : String := (pySplitOn model ":").headD ""

/-- The model-availability check at the top of `OllamaProvider._query_llm`:
`.ok m` continues with the (possibly tag-normalized) model name, `.error s`
is the early `return` of the "Model ... not found" string. -/
def ollamaModelCheck (o : OllamaProvider) (model : String) : Except String String :=
  match o.tags with
  | some (some avail) =>
    match avail.find? (fun a => a == model || pyStartswith a (modelBase model ++ ":")) with
    | some actual => .ok actual
    | none => .error ("Error: Model \x27" ++ model ++ "\x27 not found. Available models: " ++
        (if avail.isEmpty then "none" else String.intercalate ", " avail) ++
        ". Run: ollama pull " ++ modelBase model)
  | _ => .ok model

/-- `OllamaProvider._query_llm`: the whole body is wrapped in
`try/except Exception`, so a chat failure comes back in-band as
`"Error from Ollama: ..."` and the method itself never raises. -/
def OllamaProvider.queryLLM (o : OllamaProvider) (prompt : String) (model : Option String) : String :=
  let m := pyOr model o.default_model
  match ollamaModelCheck o m with
  | .error s => s
  | .ok m' =>
    match o.chat m' prompt with
    | .ok content => content
    | .error e => "Error from Ollama: " ++ e

/-- `SimpleCache` (src/utils/cache.py): an insertion-ordered dict from the
md5 of `f"{provider}:{prompt}"` to the response.  The md5 hash is modelled
as the hashed content itself (collision-free here since provider names
contain no colon). -/
structure SimpleCache where
  cache : List (String × String)
  max_size : Nat

/-- `SimpleCache._get_key`. -/
def SimpleCache.getKey (prompt provider : String) : String := provider ++ ":" ++ prompt

/-- `SimpleCache.get`. -/
def SimpleCache.get (c : SimpleCache) (prompt provider : String) : Option String :=
  dictGet c.cache (SimpleCache.getKey prompt provider)

/-- `SimpleCache.set`: evict the oldest entry first when full (for
`max_size = 0` on an empty cache Python's `next(iter(...))` would raise
`StopIteration`; `List.tail` makes that unreachable corner a no-op — the
global instance uses `max_size = 1000`). -/
def SimpleCache.set (c : SimpleCache) (prompt provider response : String) : SimpleCache :=
  let key := SimpleCache.getKey prompt provider
  let cache1 := if c.cache.length ≥ c.max_size then c.cache.tail else c.cache
  { c with cache := dictSet cache1 key response }

/-- A provider as seen by the caching base class `BaseLLMProvider`
(src/providers/base.py): its name and its `_query_llm` oracle per
(prompt, model).  Of the shipped providers only `OllamaProvider` inherits
the caching `query`; Groq and Mistral override it. -/
structure BaseLLMProvider where
  name : String
  queryLLM : String → Option String → String

/-- `BaseLLMProvider.query`: return the cached response when the cached
value is truthy (present and non-empty), otherwise call `_query_llm` and
cache its result.  The third component records whether `_query_llm` was
invoked. -/
def BaseLLMProvider.query (p : BaseLLMProvider) (cache : SimpleCache)
    (prompt : String) (model : Option String) : String × SimpleCache × Bool :=
  match SimpleCache.get cache prompt p.name with
  | some cached =>
    if cached = "" then
      let r := p.queryLLM prompt model
      (r, SimpleCache.set cache prompt p.name r, true)
    else
      (cached, cache, false)
  | none =>
    let r := p.queryLLM prompt model
    (r, SimpleCache.set cache prompt p.name r, true)

/-! ## Confidence scorer (legacy "vote" mode)

The vote-mode confidence scorer appears in the spec (§4.2) but no file under
src/ implements it; the definitions below are modelled from the spec's
words. -/

/-- Modelled from the spec: "case-insensitive whitespace tokenization" — the
set of lowercased whitespace-separated tokens of a response (src/ has no
implementation of the vote-mode scorer). -/
def wordset (s : String) : Finset String :=
  (pySplitWs (pyLower s)).toFinset

/-- Modelled from the spec: "similarity(a,b) = |wordset(a) ∩ wordset(b)| /
|wordset(a) ∪ wordset(b)| ... 0.0 if either set is empty". -/
def similarity (a b : String) : ℚ :=
  let wa := wordset a
  let wb := wordset b
  if wa = ∅ ∨ wb = ∅ then 0
  else ((wa ∩ wb).card : ℚ) / ((wa ∪ wb).card : ℚ)

/-- The response text of entry `i` of a response set (a name-keyed list in
registration order). -/
def respAt (rs : List (String × String)) (i : Nat) : String := (rs.getD i ("", "")).2

/-- Modelled from the spec: "for every unordered pair of providers, add the
similarity to both providers' running score" — provider `i`'s raw score. -/
def rawScore (rs : List (String × String)) (i : Nat) : ℚ :=
  ∑ j ∈ (Finset.range rs.length).erase i, similarity (respAt rs i) (respAt rs j)

/-- The largest raw score of the response set (0 when the set is empty). -/
def maxScore (rs : List (String × String)) : ℚ :=
  ((List.range rs.length).map (rawScore rs)).foldr max 0

/-- Modelled from the spec: "normalize by dividing every score by the
maximum score (no-op ... if max is 0)". -/
def confidence (rs : List (String × String)) (i : Nat) : ℚ :=
  if maxScore rs = 0 then rawScore rs i else rawScore rs i / maxScore rs

/-- The largest value of the confidence map. -/
def maxConfidence (rs : List (String × String)) : ℚ :=
  ((List.range rs.length).map (confidence rs)).foldr max 0

theorem foldr_max_nonneg (l : List ℚ) : 0 ≤ l.foldr max 0 := by
  induction l with
  | nil => simp
  | cons x rest ih => exact le_trans ih (le_max_right x _)

theorem le_foldr_max (l : List ℚ) (x : ℚ) (hx : x ∈ l) : x ≤ l.foldr max 0 := by
  induction l with
  | nil => cases hx
  | cons y rest ih =>
    rcases List.mem_cons.mp hx with h | h
    · subst h; exact le_max_left x _
    · exact le_trans (ih h) (le_max_right y _)

theorem foldr_max_mem (l : List ℚ) : l.foldr max 0 = 0 ∨ l.foldr max 0 ∈ l := by
  induction l with
  | nil => left; rfl
  | cons x rest ih =>
    rcases le_total x (rest.foldr max 0) with h | h
    · rcases ih with h0 | hm
      · left
        rw [List.foldr_cons, max_eq_right h, h0]
      · right
        rw [List.foldr_cons, max_eq_right h]
        exact List.mem_cons_of_mem x hm
    · right
      simp only [List.foldr_cons, max_eq_left h]
      exact List.mem_cons_self x rest

theorem foldr_max_eq_of_mem_of_ub (l : List ℚ) (x : ℚ) (hx : x ∈ l)
    (hub : ∀ y ∈ l, y ≤ x) (h0 : 0 ≤ x) : l.foldr max 0 = x := by
  apply le_antisymm
  · induction l with
    | nil => simpa using h0
    | cons y rest ih =>
      simp only [List.foldr_cons, max_le_iff]
      refine ⟨hub y (List.mem_cons_self y rest), ?_⟩
      rcases List.mem_cons.mp hx with h | h
      · rcases foldr_max_mem rest with h0' | hm
        · rw [h0']; exact h0
        · exact hub _ (List.mem_cons_of_mem y hm)
      · exact ih h (fun z hz => hub z (List.mem_cons_of_mem y hz))
  · exact le_foldr_max l x hx

theorem similarity_nonneg (a b : String) : 0 ≤ similarity a b := by
  simp only [similarity]
  split_ifs
  · exact le_refl 0
  · positivity

theorem similarity_le_one (a b : String) : similarity a b ≤ 1 := by
  simp only [similarity]
  split_ifs with h
  · exact zero_le_one
  · push_neg at h
    have hsub : wordset a ∩ wordset b ⊆ wordset a ∪ wordset b :=
      le_trans Finset.inter_subset_left Finset.subset_union_left
    have hcard : (wordset a ∩ wordset b).card ≤ (wordset a ∪ wordset b).card :=
      Finset.card_le_card hsub
    have hpos : 0 < (wordset a ∪ wordset b).card := by
      rcases Finset.nonempty_of_ne_empty h.1 with ⟨x, hx⟩
      exact Finset.card_pos.mpr ⟨x, Finset.mem_union_left _ hx⟩
    rw [div_le_one (by exact_mod_cast hpos)]
    exact_mod_cast hcard

theorem rawScore_nonneg (rs : List (String × String)) (i : Nat) : 0 ≤ rawScore rs i :=
  Finset.sum_nonneg (fun _ _ => similarity_nonneg _ _)

theorem rawScore_mem_map (rs : List (String × String)) (i : Nat) (hi : i < rs.length) :
    rawScore rs i ∈ (List.range rs.length).map (rawScore rs) :=
  List.mem_map_of_mem (rawScore rs) (List.mem_range.mpr hi)

theorem maxScore_ge (rs : List (String × String)) (i : Nat) (hi : i < rs.length) :
    rawScore rs i ≤ maxScore rs :=
  le_foldr_max _ _ (rawScore_mem_map rs i hi)

theorem maxScore_nonneg (rs : List (String × String)) : 0 ≤ maxScore rs :=
  foldr_max_nonneg _

theorem maxScore_pos_of_pair (rs : List (String × String)) (i j : Nat)
    (hi : i < rs.length) (hj : j < rs.length) (hij : i ≠ j)
    (hpos : 0 < similarity (respAt rs i) (respAt rs j)) : 0 < maxScore rs := by
  have hterm : similarity (respAt rs i) (respAt rs j) ≤ rawScore rs i := by
    have hjmem : j ∈ (Finset.range rs.length).erase i :=
      Finset.mem_erase.mpr ⟨fun he => hij he.symm, Finset.mem_range.mpr hj⟩
    exact Finset.single_le_sum (fun k _ => similarity_nonneg _ _) hjmem
  exact lt_of_lt_of_le (lt_of_lt_of_le hpos hterm) (maxScore_ge rs i hi)

theorem confidence_le_one (rs : List (String × String)) (i : Nat)
    (hi : i < rs.length) (hpos : 0 < maxScore rs) : confidence rs i ≤ 1 := by
  unfold confidence
  rw [if_neg (ne_of_gt hpos)]
  rw [div_le_one hpos]
  exact maxScore_ge rs i hi

theorem maxConfidence_eq_one (rs : List (String × String))
    (hpos : 0 < maxScore rs) : maxConfidence rs = 1 := by
  rcases foldr_max_mem ((List.range rs.length).map (rawScore rs)) with h0 | hm
  · rw [maxScore] at hpos
    rw [h0] at hpos
    exact absurd hpos (lt_irrefl 0)
  · rcases List.mem_map.mp hm with ⟨i0, hi0, hraw⟩
    have hi0' : i0 < rs.length := List.mem_range.mp hi0
    have hconf : confidence rs i0 = 1 := by
      unfold confidence
      rw [if_neg (ne_of_gt hpos)]
      rw [hraw]
      exact div_self (ne_of_gt hpos)
    apply foldr_max_eq_of_mem_of_ub
    · rw [← hconf]
      exact List.mem_map_of_mem (confidence rs) hi0
    · intro y hy
      rcases List.mem_map.mp hy with ⟨k, hk, hkc⟩
      rw [← hkc]
      exact confidence_le_one rs k (List.mem_range.mp hk) hpos
    · exact zero_le_one

theorem similarity_eq_zero_of_disjoint (a b : String)
    (h : wordset a ∩ wordset b = ∅) : similarity a b = 0 := by
  simp only [similarity]
  split_ifs
  · rfl
  · rw [h]
    simp

theorem confidence_all_zero (rs : List (String × String))
    (h : ∀ i ∈ Finset.range rs.length, ∀ j ∈ Finset.range rs.length,
         i ≠ j → wordset (respAt rs i) ∩ wordset (respAt rs j) = ∅)
    (i : Nat) : confidence rs i = 0 := by
  have hraw : ∀ k, rawScore rs k = 0 := by
    intro k
    unfold rawScore
    apply Finset.sum_eq_zero
    intro j hj
    rcases Finset.mem_erase.mp hj with ⟨hjk, hjr⟩
    by_cases hk : k < rs.length
    · exact similarity_eq_zero_of_disjoint _ _
        (h k (Finset.mem_range.mpr hk) j hjr (fun he => hjk he.symm))
    · have : respAt rs k = "" := by
        unfold respAt
        rw [List.getD_eq_default]
        omega
      rw [this]
      have hwe : wordset "" = ∅ := by decide
      simp [similarity, hwe]
  unfold confidence
  rw [hraw i]
  split_ifs <;> simp

/-! ## Claims -/

/-- C2 counterexample: the source's second section marker is
`"OPTIMIZED RESPONSE:"`, not `"IMPROVED RESPONSE:"`, so the claimed
round-trip input lacks the second marker, falls into the fallback branch,
and does not parse to `("foo", "bar")`. -/
theorem parseRefinement_improved_marker_cex :
    parseRefinement "ANALYSIS:\nfoo\nIMPROVED RESPONSE:\nbar" ≠ ("foo", "bar") ∧
    parseRefinement "ANALYSIS:\nfoo\nIMPROVED RESPONSE:\nbar" =
      ("Response analyzed and optimized by combining information from both providers.",
       "ANALYSIS:\nfoo\nIMPROVED RESPONSE:\nbar") :=
  ⟨by decide, by decide⟩

/-- C2 (amended): with both markers `"ANALYSIS:"` and `"OPTIMIZED RESPONSE:"`
present, the parser splits on the second marker and the analysis is the text
before it with the `"ANALYSIS:"` label stripped; in particular
`"ANALYSIS:\nfoo\nOPTIMIZED RESPONSE:\nbar"` parses to analysis `"foo"` and
response `"bar"` (and the spec §8 scenario input parses to
`("missing Y", "X and Y")`). -/
theorem parseRefinement_optimized_marker (s : String)
    (h : (strContains s "ANALYSIS:" && strContains s "OPTIMIZED RESPONSE:") = true) :
    (parseRefinement s).1 =
      pyStrip (pyReplace ((pySplitOn s "OPTIMIZED RESPONSE:").headD "") "ANALYSIS:" "") ∧
    parseRefinement "ANALYSIS:\nfoo\nOPTIMIZED RESPONSE:\nbar" = ("foo", "bar") ∧
    parseRefinement "ANALYSIS:\nmissing Y\nOPTIMIZED RESPONSE:\nX and Y" =
      ("missing Y", "X and Y") := by
  refine ⟨?_, by decide, by decide⟩
  simp [parseRefinement, h]

/-- Witness for C2 (amended) at a concrete refiner output. -/
theorem parseRefinement_optimized_marker_witness :
    (strContains "ANALYSIS:\nfoo\nOPTIMIZED RESPONSE:\nbar" "ANALYSIS:" &&
     strContains "ANALYSIS:\nfoo\nOPTIMIZED RESPONSE:\nbar" "OPTIMIZED RESPONSE:") = true ∧
    ((parseRefinement "ANALYSIS:\nfoo\nOPTIMIZED RESPONSE:\nbar").1 =
      pyStrip (pyReplace
        ((pySplitOn "ANALYSIS:\nfoo\nOPTIMIZED RESPONSE:\nbar" "OPTIMIZED RESPONSE:").headD "")
        "ANALYSIS:" "") ∧
     parseRefinement "ANALYSIS:\nfoo\nOPTIMIZED RESPONSE:\nbar" = ("foo", "bar") ∧
     parseRefinement "ANALYSIS:\nmissing Y\nOPTIMIZED RESPONSE:\nX and Y" =
       ("missing Y", "X and Y")) :=
  ⟨by decide, parseRefinement_optimized_marker "ANALYSIS:\nfoo\nOPTIMIZED RESPONSE:\nbar" (by decide)⟩

/-- C3 counterexample: the deterministic fallback analysis produced for
marker-less refiner output is
`"Response analyzed and optimized by combining information from both
providers."`, not the claimed `"response analyzed and improved based on
identified gaps"`. -/
theorem parseRefinement_fallback_string_cex :
    (parseRefinement "hello").1 ≠ "response analyzed and improved based on identified gaps" ∧
    parseRefinement "hello" =
      ("Response analyzed and optimized by combining information from both providers.",
       "hello") :=
  ⟨by decide, by decide⟩

/-- C3 (amended): for refiner output lacking at least one of the two section
markers, `sequential_refine`'s parser does not abort: the entire raw output
becomes the refined response and the analysis is exactly the fixed fallback
string `"Response analyzed and optimized by combining information from both
providers."`. -/
theorem parseRefinement_fallback (s : String)
    (h : (strContains s "ANALYSIS:" && strContains s "OPTIMIZED RESPONSE:") = false) :
    parseRefinement s =
      ("Response analyzed and optimized by combining information from both providers.", s) := by
  simp [parseRefinement, h, fallbackAnalysis]

/-- Witness for C3 (amended) at a marker-less output. -/
theorem parseRefinement_fallback_witness :
    (strContains "hello" "ANALYSIS:" && strContains "hello" "OPTIMIZED RESPONSE:") = false ∧
    parseRefinement "hello" =
      ("Response analyzed and optimized by combining information from both providers.",
       "hello") :=
  ⟨by decide, parseRefinement_fallback "hello" (by decide)⟩

/-- C4: with exactly one registered provider, `sequential_refine` fails with
the typed `ValueError "Sequential refinement requires at least 2 providers"`
and issues zero network calls. -/
theorem sequential_refine_single_provider (c : LLMCouncil) (prompt : String)
    (h : c.providers.length = 1) :
    (sequential_refine c prompt).2.1 =
      .error (.valueError "Sequential refinement requires at least 2 providers") ∧
    (sequential_refine c prompt).2.2 = [] := by
  have hlt : ({ c with currentPrompt := prompt } : LLMCouncil).providers.length < 2 := by
    simp [h]
  constructor <;> simp [sequential_refine, hlt]

def c4Council : LLMCouncil :=
  ⟨[⟨"Groq", "llama-3.1-70b-versatile", fun _ => ⟨0, .ok "fine"⟩⟩], ""⟩

/-- Witness for C4 at a one-provider council. -/
theorem sequential_refine_single_provider_witness :
    c4Council.providers.length = 1 ∧
    ((sequential_refine c4Council "q").2.1 =
      .error (.valueError "Sequential refinement requires at least 2 providers") ∧
     (sequential_refine c4Council "q").2.2 = []) :=
  ⟨by decide, sequential_refine_single_provider c4Council "q" (by decide)⟩

def c7Council : LLMCouncil :=
  ⟨[⟨"Groq", "llama-3.1-70b-versatile", fun _ => ⟨0, .ok "fine"⟩⟩], ""⟩

/-- C7 counterexample: `sequential_refine` stores the per-call question on
the orchestrator instance — starting from `_current_prompt = ""`, a call
with prompt `"q"` leaves the field changed to `"q"`, so the operation does
not leave every field of the orchestrator unchanged. -/
theorem current_prompt_stored_cex :
    (sequential_refine c7Council "q").1.currentPrompt = "q" ∧
    c7Council.currentPrompt ≠ "q" :=
  ⟨by decide, by decide⟩

/-- C7 (amended): `consult`, `sequential_refine` and `summarize` leave the
`providers` field unchanged but each stores the per-call question into the
orchestrator's `_current_prompt` field at entry (the question is also
threaded as a parameter into the prompt builders). -/
theorem operations_set_current_prompt (c : LLMCouncil) (prompt : String) :
    (consult c prompt).1 = { providers := c.providers, currentPrompt := prompt } ∧
    (sequential_refine c prompt).1 = { providers := c.providers, currentPrompt := prompt } ∧
    (summarize c prompt).1 = { providers := c.providers, currentPrompt := prompt } := by
  refine ⟨?_, ?_, ?_⟩
  · simp only [consult]
    split <;> rfl
  · simp only [sequential_refine]
    repeat' split
    all_goals rfl
  · simp only [summarize]
    repeat' split
    all_goals rfl

/-- C1: for every non-empty provider set (with the names unique, as provider
identity is the name) and every prompt, `query_all` returns a dict whose key
list is exactly the registration-ordered provider name list (so the key set
equals the provider name set, one entry each); a provider whose call times
out or raises contributes an `"Error: ..."` marker string in its slot while
every provider whose call completes keeps its normal response.  The overall
call never raises: `query_all` is total, the inner `query_with_timeout`
converts both outcomes into values. -/
theorem query_all_complete_and_isolating (c : LLMCouncil) (prompt : String)
    (_hlen : 1 ≤ c.providers.length)
    (hnodup : (c.providers.map Provider.name).Nodup) :
    dictKeys (query_all c prompt).1 = c.providers.map Provider.name ∧
    ∀ p ∈ c.providers,
      (∀ s, waitFor (p.behavior (summaryPrompt prompt)) API_TIMEOUT = .ok s →
        dictGet (query_all c prompt).1 p.name = some s) ∧
      (waitFor (p.behavior (summaryPrompt prompt)) API_TIMEOUT = .timeout →
        dictGet (query_all c prompt).1 p.name = some "Error: Timeout after 60s") ∧
      (∀ m, waitFor (p.behavior (summaryPrompt prompt)) API_TIMEOUT = .raised m →
        dictGet (query_all c prompt).1 p.name = some ("Error: " ++ m)) := by
  have hfst : (query_all c prompt).1 =
      c.providers.foldl
        (fun d p => dictSet d p.name (queryAllSlot p (summaryPrompt prompt))) [] := rfl
  constructor
  · rw [hfst]
    have := dictKeys_foldl_slots c.providers
      (fun p => queryAllSlot p (summaryPrompt prompt)) []
      (fun p _ => rfl) hnodup
    simpa [dictKeys] using this
  · intro p hp
    have hslot : dictGet (query_all c prompt).1 p.name =
        some (queryAllSlot p (summaryPrompt prompt)) := by
      rw [hfst]
      exact dictGet_foldl_slots c.providers
        (fun p => queryAllSlot p (summaryPrompt prompt)) [] p hp hnodup
    refine ⟨?_, ?_, ?_⟩
    · intro s hw
      rw [hslot]
      simp [queryAllSlot, query_with_timeout, hw]
    · intro hw
      rw [hslot]
      simp [queryAllSlot, query_with_timeout, hw]
      rfl
    · intro m hw
      rw [hslot]
      simp [queryAllSlot, query_with_timeout, hw]

def c1Council : LLMCouncil :=
  ⟨[⟨"Groq", "llama-3.1-70b-versatile", fun _ => ⟨1, .ok "groq answer"⟩⟩,
    ⟨"Mistral", "mistral-large-latest", fun _ => ⟨999, .ok "never seen"⟩⟩], ""⟩

/-- Witness for C1 at a two-provider council in which the second provider's
call exceeds the timeout. -/
theorem query_all_complete_and_isolating_witness :
    (1 ≤ c1Council.providers.length ∧
     (c1Council.providers.map Provider.name).Nodup) ∧
    (dictKeys (query_all c1Council "q").1 = c1Council.providers.map Provider.name ∧
     ∀ p ∈ c1Council.providers,
       (∀ s, waitFor (p.behavior (summaryPrompt "q")) API_TIMEOUT = .ok s →
         dictGet (query_all c1Council "q").1 p.name = some s) ∧
       (waitFor (p.behavior (summaryPrompt "q")) API_TIMEOUT = .timeout →
         dictGet (query_all c1Council "q").1 p.name = some "Error: Timeout after 60s") ∧
       (∀ m, waitFor (p.behavior (summaryPrompt "q")) API_TIMEOUT = .raised m →
         dictGet (query_all c1Council "q").1 p.name = some ("Error: " ++ m))) :=
  ⟨⟨by decide, by decide⟩,
   query_all_complete_and_isolating c1Council "q" (by decide) (by decide)⟩

def c6Ollama : Provider := ⟨"Ollama", "llama3.1", fun _ => ⟨90, .ok "local answer"⟩⟩

def c6Council : LLMCouncil := ⟨[c6Ollama], ""⟩

/-- C6 counterexample: in `query_all` the local-inference Ollama provider is
wrapped with the same uniform 60-second `API_TIMEOUT` as everyone else: its
90-second call is marked `"Error: Timeout after 60s"` even though under the
claimed 120-second local allowance the very same call completes normally. -/
theorem query_all_uniform_timeout_cex :
    (query_all c6Council "q").1 = [("Ollama", "Error: Timeout after 60s")] ∧
    waitFor (c6Ollama.behavior (summaryPrompt "q")) OLLAMA_TIMEOUT = .ok "local answer" :=
  ⟨by decide, by decide⟩

/-- C6 (amended): in `query_all` every provider's call — local Ollama
included — is wrapped with the uniform `API_TIMEOUT` (60 s): the slot is the
timeout marker or the normal response according to that single allowance.
The class-specific timeout (120 s for the provider named `"Ollama"`, 60 s
for every other) exists only in `sequential_refine`'s timeout selection. -/
theorem query_all_timeout_uniform (c : LLMCouncil) (prompt : String) (p : Provider)
    (hmem : p ∈ c.providers)
    (hnodup : (c.providers.map Provider.name).Nodup) :
    (waitFor (p.behavior (summaryPrompt prompt)) API_TIMEOUT = .timeout →
      dictGet (query_all c prompt).1 p.name = some "Error: Timeout after 60s") ∧
    (∀ s, waitFor (p.behavior (summaryPrompt prompt)) API_TIMEOUT = .ok s →
      dictGet (query_all c prompt).1 p.name = some s) ∧
    seqRefineTimeout "Ollama" = OLLAMA_TIMEOUT ∧
    (∀ n, n ≠ "Ollama" → seqRefineTimeout n = API_TIMEOUT) ∧
    API_TIMEOUT = 60 ∧ OLLAMA_TIMEOUT = 120 := by
  have hslot : dictGet (query_all c prompt).1 p.name =
      some (queryAllSlot p (summaryPrompt prompt)) :=
    dictGet_foldl_slots c.providers
      (fun p => queryAllSlot p (summaryPrompt prompt)) [] p hmem hnodup
  refine ⟨?_, ?_, rfl, ?_, rfl, rfl⟩
  · intro hw
    rw [hslot]
    simp [queryAllSlot, query_with_timeout, hw]
    rfl
  · intro s hw
    rw [hslot]
    simp [queryAllSlot, query_with_timeout, hw]
  · intro n hn
    simp [seqRefineTimeout, hn]

/-- Witness for C6 (amended) at the one-Ollama council of the
counterexample. -/
theorem query_all_timeout_uniform_witness :
    (c6Ollama ∈ c6Council.providers ∧
     (c6Council.providers.map Provider.name).Nodup) ∧
    ((waitFor (c6Ollama.behavior (summaryPrompt "q")) API_TIMEOUT = .timeout →
      dictGet (query_all c6Council "q").1 c6Ollama.name = some "Error: Timeout after 60s") ∧
     (∀ s, waitFor (c6Ollama.behavior (summaryPrompt "q")) API_TIMEOUT = .ok s →
      dictGet (query_all c6Council "q").1 c6Ollama.name = some s) ∧
     seqRefineTimeout "Ollama" = OLLAMA_TIMEOUT ∧
     (∀ n, n ≠ "Ollama" → seqRefineTimeout n = API_TIMEOUT) ∧
     API_TIMEOUT = 60 ∧ OLLAMA_TIMEOUT = 120) :=
  ⟨⟨List.mem_singleton.mpr rfl, by decide⟩,
   query_all_timeout_uniform c6Council "q" c6Ollama (List.mem_singleton.mpr rfl) (by decide)⟩

/-- The synthesis prompt as it is built inside `consult`'s pipeline (after
`_current_prompt := prompt`, fan-out, and critiques). -/
def consultSynthPrompt (c : LLMCouncil) (prompt : String) : String :=
  let c1 : LLMCouncil := { c with currentPrompt := prompt }
  let qa := query_all c1 prompt
  synthesisPrompt prompt qa.1 (generate_critiques c1 qa.1).1

/-- C5: synthesis is performed by exactly one designated synthesizer — the
first-registered provider (`self.providers[0]`): `_synthesize_answer`
issues exactly one network call, to that provider.  If that synthesis call
times out or raises, the whole `consult` call aborts with a typed
`RuntimeError`; no fallback final answer is produced. -/
theorem synthesis_first_provider_fatal (c : LLMCouncil) (prompt : String)
    (syn : Provider) (rest : List Provider)
    (h : c.providers = syn :: rest) :
    (∀ responses critiques,
      (synthesize_answer { c with currentPrompt := prompt } responses critiques).2 =
        [(syn.name, synthesisPrompt prompt responses critiques)]) ∧
    (waitFor (syn.behavior (consultSynthPrompt c prompt)) API_TIMEOUT = .timeout →
      (consult c prompt).2.1 =
        .error (.runtimeError "Synthesis timed out after 60 seconds")) ∧
    (∀ m, waitFor (syn.behavior (consultSynthPrompt c prompt)) API_TIMEOUT = .raised m →
      (consult c prompt).2.1 =
        .error (.runtimeError ("Error during synthesis: " ++ m))) := by
  refine ⟨?_, ?_, ?_⟩
  · intro responses critiques
    simp [synthesize_answer, h]
  · intro hw
    simp only [consult, consultSynthPrompt] at hw ⊢
    simp only [synthesize_answer, h] at hw ⊢
    rw [hw]
    rfl
  · intro m hw
    simp only [consult, consultSynthPrompt] at hw ⊢
    simp only [synthesize_answer, h] at hw ⊢
    rw [hw]

def c5Syn : Provider := ⟨"Groq", "llama-3.1-70b-versatile", fun _ => ⟨0, .error "boom"⟩⟩

def c5Rest : List Provider := [⟨"Mistral", "mistral-large-latest", fun _ => ⟨0, .ok "hi"⟩⟩]

def c5Council : LLMCouncil := ⟨c5Syn :: c5Rest, ""⟩

/-- Witness for C5 at a two-provider council whose first provider raises on
every call. -/
theorem synthesis_first_provider_fatal_witness :
    c5Council.providers = c5Syn :: c5Rest ∧
    ((∀ responses critiques,
      (synthesize_answer { c5Council with currentPrompt := "q" } responses critiques).2 =
        [(c5Syn.name, synthesisPrompt "q" responses critiques)]) ∧
    (waitFor (c5Syn.behavior (consultSynthPrompt c5Council "q")) API_TIMEOUT = .timeout →
      (consult c5Council "q").2.1 =
        .error (.runtimeError "Synthesis timed out after 60 seconds")) ∧
    (∀ m, waitFor (c5Syn.behavior (consultSynthPrompt c5Council "q")) API_TIMEOUT = .raised m →
      (consult c5Council "q").2.1 =
        .error (.runtimeError ("Error during synthesis: " ++ m)))) :=
  ⟨rfl, synthesis_first_provider_fatal c5Council "q" c5Syn c5Rest rfl⟩

/-- C8: every pairwise similarity lies in `[0, 1]`; whenever some pairwise
similarity between two distinct entries of a response set is positive, the
maximum of the max-normalized confidence map is exactly 1; and when no two
distinct responses share any token every confidence value is 0. -/
theorem confidence_scorer_bounds :
    (∀ a b : String, 0 ≤ similarity a b ∧ similarity a b ≤ 1) ∧
    (∀ rs : List (String × String), ∀ i j : Nat,
      i ∈ Finset.range rs.length → j ∈ Finset.range rs.length → i ≠ j →
      0 < similarity (respAt rs i) (respAt rs j) → maxConfidence rs = 1) ∧
    (∀ rs : List (String × String),
      (∀ i ∈ Finset.range rs.length, ∀ j ∈ Finset.range rs.length,
        i ≠ j → wordset (respAt rs i) ∩ wordset (respAt rs j) = ∅) →
      ∀ i ∈ Finset.range rs.length, confidence rs i = 0) := by
  refine ⟨fun a b => ⟨similarity_nonneg a b, similarity_le_one a b⟩, ?_, ?_⟩
  · intro rs i j hi hj hij hpos
    exact maxConfidence_eq_one rs
      (maxScore_pos_of_pair rs i j (Finset.mem_range.mp hi) (Finset.mem_range.mp hj) hij hpos)
  · intro rs h i _
    exact confidence_all_zero rs h i

def c8RsPos : List (String × String) :=
  [("Groq", "hello world"), ("Mistral", "hello there")]

def c8RsZero : List (String × String) :=
  [("Groq", "alpha"), ("Mistral", "beta")]

/-- Witness for C8: a pair of overlapping responses is driven to a
normalized maximum of 1; a pair sharing no token gets confidence 0. -/
theorem confidence_scorer_bounds_witness :
    maxConfidence c8RsPos = 1 ∧ confidence c8RsZero 0 = 0 := by
  have hr0 : respAt c8RsPos 0 = "hello world" := by decide
  have hr1 : respAt c8RsPos 1 = "hello there" := by decide
  have hpos : 0 < similarity (respAt c8RsPos 0) (respAt c8RsPos 1) := by
    rw [hr0, hr1]
    have hne : ¬(wordset "hello world" = ∅ ∨ wordset "hello there" = ∅) := by decide
    have hi : (wordset "hello world" ∩ wordset "hello there").card = 1 := by decide
    have hu : (wordset "hello world" ∪ wordset "hello there").card = 3 := by decide
    simp only [similarity]
    rw [if_neg hne, hi, hu]
    norm_num
  exact ⟨confidence_scorer_bounds.2.1 c8RsPos 0 1 (by decide) (by decide) (by decide) hpos,
         confidence_scorer_bounds.2.2 c8RsZero (by decide) 0 (by decide)⟩

/-- Prefix monotonicity under extension, used for the error-marker prefixes
below. -/
theorem listStartsWith_of_startsWith (p s t : List Char)
    (h : listStartsWith s p = true) : listStartsWith (s ++ t) p = true := by
  induction p generalizing s with
  | nil =>
    cases hst : s ++ t with
    | nil => rfl
    | cons c cs => rfl
  | cons c ps ih =>
    cases s with
    | nil => simp [listStartsWith] at h
    | cons c' s' =>
      simp only [listStartsWith, Bool.and_eq_true] at h
      simp only [List.cons_append, listStartsWith, Bool.and_eq_true]
      exact ⟨h.1, ih s' h.2⟩

/-- C9: `GroqProvider.query`, `MistralProvider.query` and
`OllamaProvider._query_llm` never propagate an exception (each is a total
function into `String`: the `try/except Exception` wrapping the whole body
absorbs every raise); when the underlying API call fails the failure comes
back in-band as a string beginning `"Error from Groq:"`,
`"Error from Mistral:"` or `"Error from Ollama:"` respectively, so the only
exception path the orchestrator can observe from a provider call is the
externally-imposed `asyncio.wait_for` timeout (task cancellation is not an
`Exception` in Python). -/
theorem provider_query_errors_in_band (g : GroqProvider) (mi : MistralProvider)
    (o : OllamaProvider) (prompt : String) (model : Option String)
    (eg em eo m' : String)
    (hg : g.api (pyOr model g.default_model) prompt = .error eg)
    (hm : mi.api (pyOr model mi.default_model) prompt = .error em)
    (hoc : ollamaModelCheck o (pyOr model o.default_model) = .ok m')
    (ho : o.chat m' prompt = .error eo) :
    GroqProvider.query g prompt model = "Error from Groq: " ++ eg ∧
    MistralProvider.query mi prompt model = "Error from Mistral: " ++ em ∧
    OllamaProvider.queryLLM o prompt model = "Error from Ollama: " ++ eo ∧
    pyStartswith (GroqProvider.query g prompt model) "Error from Groq:" = true ∧
    pyStartswith (MistralProvider.query mi prompt model) "Error from Mistral:" = true ∧
    pyStartswith (OllamaProvider.queryLLM o prompt model) "Error from Ollama:" = true := by
  have hgq : GroqProvider.query g prompt model = "Error from Groq: " ++ eg := by
    simp [GroqProvider.query, hg]
  have hmq : MistralProvider.query mi prompt model = "Error from Mistral: " ++ em := by
    simp [MistralProvider.query, hm]
  have hoq : OllamaProvider.queryLLM o prompt model = "Error from Ollama: " ++ eo := by
    simp [OllamaProvider.queryLLM, hoc, ho]
  refine ⟨hgq, hmq, hoq, ?_, ?_, ?_⟩
  · rw [hgq]
    exact listStartsWith_of_startsWith _ _ _ (by decide)
  · rw [hmq]
    exact listStartsWith_of_startsWith _ _ _ (by decide)
  · rw [hoq]
    exact listStartsWith_of_startsWith _ _ _ (by decide)

def c9Groq : GroqProvider :=
  ⟨"gsk-key", "llama-3.1-70b-versatile", fun _ _ => .error "connection reset"⟩

def c9Mistral : MistralProvider :=
  ⟨"mi-key", "mistral-large-latest", fun _ _ => .error "401 unauthorized"⟩

def c9Ollama : OllamaProvider :=
  ⟨"http://localhost:11434", "llama3.1", none, fun _ _ => .error "server stopped"⟩

/-- Witness for C9 at three providers whose underlying API calls all fail. -/
theorem provider_query_errors_in_band_witness :
    GroqProvider.query c9Groq "q" none = "Error from Groq: connection reset" ∧
    MistralProvider.query c9Mistral "q" none = "Error from Mistral: 401 unauthorized" ∧
    OllamaProvider.queryLLM c9Ollama "q" none = "Error from Ollama: server stopped" ∧
    pyStartswith (GroqProvider.query c9Groq "q" none) "Error from Groq:" = true ∧
    pyStartswith (MistralProvider.query c9Mistral "q" none) "Error from Mistral:" = true ∧
    pyStartswith (OllamaProvider.queryLLM c9Ollama "q" none) "Error from Ollama:" = true :=
  provider_query_errors_in_band c9Groq c9Mistral c9Ollama "q" none
    "connection reset" "401 unauthorized" "server stopped" "llama3.1"
    rfl rfl rfl rfl

/-- The value just cached is read back. -/
theorem SimpleCache.get_set (c : SimpleCache) (prompt provider r : String) :
    SimpleCache.get (SimpleCache.set c prompt provider r) prompt provider = some r := by
  simp only [SimpleCache.get, SimpleCache.set]
  exact dictGet_dictSet_self _ _ _

/-- C10: for a provider using the caching base `query` (e.g. Ollama), if a
first query is a cache miss whose `_query_llm` call returns a non-empty
string `r`, then a second query with the same prompt and provider name
returns exactly `r` from the cache without invoking `_query_llm` again —
including when `r` is an in-band error-marker string, which is therefore
cached and replayed. -/
theorem cached_query_replays (p : BaseLLMProvider) (cache : SimpleCache)
    (prompt : String) (model : Option String)
    (hcalled : (BaseLLMProvider.query p cache prompt model).2.2 = true)
    (hne : (BaseLLMProvider.query p cache prompt model).1 ≠ "") :
    BaseLLMProvider.query p (BaseLLMProvider.query p cache prompt model).2.1 prompt model =
      ((BaseLLMProvider.query p cache prompt model).1,
       (BaseLLMProvider.query p cache prompt model).2.1, false) ∧
    (BaseLLMProvider.query p cache prompt model).1 = p.queryLLM prompt model := by
  have hq : BaseLLMProvider.query p cache prompt model =
      (p.queryLLM prompt model,
       SimpleCache.set cache prompt p.name (p.queryLLM prompt model), true) := by
    unfold BaseLLMProvider.query at hcalled ⊢
    cases hget : SimpleCache.get cache prompt p.name with
    | none => rfl
    | some cached =>
      simp only [hget] at hcalled ⊢
      by_cases hc : cached = ""
      · subst hc
        rfl
      · rw [if_neg hc] at hcalled
        cases hcalled
  have hne' : p.queryLLM prompt model ≠ "" := by
    rw [hq] at hne
    exact hne
  refine ⟨?_, by rw [hq]⟩
  rw [hq]
  unfold BaseLLMProvider.query
  simp only [SimpleCache.get_set]
  rw [if_neg hne']

def c10Provider : BaseLLMProvider :=
  ⟨"Ollama", fun _ _ => "Error from Ollama: connection refused"⟩

def c10Cache : SimpleCache := ⟨[], 1000⟩

/-- Witness for C10: an Ollama error-marker response is cached on the first
query and replayed verbatim, without a second `_query_llm` call. -/
theorem cached_query_replays_witness :
    ((BaseLLMProvider.query c10Provider c10Cache "hi" none).2.2 = true ∧
     (BaseLLMProvider.query c10Provider c10Cache "hi" none).1 ≠ "") ∧
    (BaseLLMProvider.query c10Provider
        (BaseLLMProvider.query c10Provider c10Cache "hi" none).2.1 "hi" none =
      ((BaseLLMProvider.query c10Provider c10Cache "hi" none).1,
       (BaseLLMProvider.query c10Provider c10Cache "hi" none).2.1, false) ∧
     (BaseLLMProvider.query c10Provider c10Cache "hi" none).1 =
       c10Provider.queryLLM "hi" none) :=
  ⟨⟨by decide, by decide⟩,
   cached_query_replays c10Provider c10Cache "hi" none (by decide) (by decide)⟩
